import Mathlib

/-!
Shallow embedding of the task-management backend in `src/app11.js`:
an Express HTTP service over a Mongoose/MongoDB `Task` collection.

The store is modelled as a list of `Task` records together with a
fresh-id counter (Mongo assigns the opaque `_id`) and a current clock
value (for the `Date.now` default of `createdAt`).  The Mongoose
operations used by the routes are embedded with their documented
semantics:

* `new Task(body)` + `save()` validates the schema: `title` is a
  `required` `String`, which fails on a missing value and on the empty
  string; `isCompleted` defaults to `false` and `createdAt` to
  `Date.now` when the body does not set them.
* `findByIdAndUpdate(id, body, { new: true })` `$set`s exactly the
  fields present in the body on the matching document and returns the
  updated document, or `null` when no document has the id.  It does
  NOT run schema validators (Mongoose default `runValidators: false`).
* `findByIdAndDelete(id)` removes the matching document if present and
  is a silent no-op otherwise.

Route handlers follow `app11.js` lines 41-64.  An error escaping a
handler (a failed `connectDB()` or a rejected store call) is mapped by
the framework default error handler to an unstructured 500 response;
no handler in the source contains a try/catch.
-/

namespace TaskApp

/-- A Task document, after schema application (`TaskSchema`,
`src/app11.js` lines 25-31).  `id` models Mongo's `_id`; dates are
modelled as naturals. -/
structure Task where
  id : Nat
  title : String
  description : Option String
  dueDate : Option Nat
  isCompleted : Bool
  createdAt : Nat
deriving Repr, DecidableEq

/-- A JSON request body, restricted to the schema paths (Mongoose
strict mode discards unknown keys).  `none` means the key is absent
from the body. -/
structure TaskBody where
  title : Option String := none
  description : Option String := none
  dueDate : Option Nat := none
  isCompleted : Option Bool := none
  createdAt : Option Nat := none
deriving Repr, DecidableEq

/-- The store state: the Task collection, the next fresh `_id`, and
the current clock used by the `Date.now` default. -/
structure Store where
  tasks : List Task
  nextId : Nat
  now : Nat
deriving Repr, DecidableEq

/-- Store-level failures (section 7 of the spec): schema validation
failure on `save()`, and a failed `connectDB()`. -/
inductive StoreError where
  | validationError
  | storeUnavailable
deriving Repr, DecidableEq

/-- `new Task(req.body)` followed by `newTask.save()`: applies schema
defaults, assigns a fresh `_id`, and validates that the `required`
`title` is present and non-empty (the Mongoose `required` check on a
`String` path rejects the empty string). -/
def Task.create (s : Store) (b : TaskBody) : Except StoreError (Task × Store) :=
  match b.title with
  | none => .error .validationError
  | some t =>
    if t = "" then .error .validationError
    else
      let task : Task :=
        { id := s.nextId
          title := t
          description := b.description
          dueDate := b.dueDate
          isCompleted := b.isCompleted.getD false
          createdAt := b.createdAt.getD s.now }
      .ok (task, { s with tasks := s.tasks ++ [task], nextId := s.nextId + 1 })

/-- `$set` of the fields present in the body onto a document, the
update semantics of `findByIdAndUpdate` for a plain-object body.  No
schema validators run here. -/
def Task.applyUpdate (t : Task) (b : TaskBody) : Task :=
  { t with
    title := b.title.getD t.title
    description := match b.description with
      | some d => some d
      | none => t.description
    dueDate := match b.dueDate with
      | some d => some d
      | none => t.dueDate
    isCompleted := b.isCompleted.getD t.isCompleted
    createdAt := b.createdAt.getD t.createdAt }

/-- `Task.findByIdAndUpdate(id, body, { new: true })`: updates the
matching document and returns it, or returns `null` (here `none`) and
leaves the store unchanged when the id is absent.  Absence is reported
by the return value, never by an error. -/
def Store.findByIdAndUpdate (s : Store) (id : Nat) (b : TaskBody) :
    Option Task × Store :=
  match s.tasks.find? (fun u => u.id == id) with
  | none => (none, s)
  | some t =>
    let t' := t.applyUpdate b
    (some t', { s with tasks := s.tasks.map (fun u => if u.id == id then t' else u) })

/-- `Task.findByIdAndDelete(id)`: removes the matching document;
silent no-op when the id is absent. -/
def Store.findByIdAndDelete (s : Store) (id : Nat) : Store :=
  { s with tasks := s.tasks.filter (fun u => u.id != id) }

/-- `Task.find()`: the full collection. -/
def Store.findAll (s : Store) : List Task :=
  s.tasks

/-- A JSON response body as serialised by the handlers:
`res.json(task)`, `res.json(tasks)`, `res.json(null)` (the PUT
handler when `findByIdAndUpdate` returned `null`), the empty body of
`res.status(204).send()`, and the framework default error page (an
unstructured HTML string, no structured error body). -/
inductive Body where
  | json (t : Task)
  | jsonList (ts : List Task)
  | jsonNull
  | empty
  | errorHtml
deriving Repr, DecidableEq

/-- An HTTP response. -/
structure Response where
  status : Nat
  body : Body
deriving Repr, DecidableEq

/-- The four API requests of `src/app11.js`. -/
inductive Request where
  | post (b : TaskBody)
  | get
  | put (id : Nat) (b : TaskBody)
  | delete (id : Nat)
deriving Repr, DecidableEq

/-- The route handlers, lines 41-64 of `src/app11.js`, verbatim: each
awaits `connectDB()` (whose outcome is the `conn` argument), performs
the single store call, and serialises.  None of them catches a store
error; a failure propagates out as the `Except` error. -/
def handle (conn : Except StoreError Unit) (s : Store) :
    Request → Except StoreError (Response × Store)
  | .post b => do
    let _ ← conn
    let (t, s') ← Task.create s b
    pure ({ status := 201, body := .json t }, s')
  | .get => do
    let _ ← conn
    pure ({ status := 200, body := .jsonList s.findAll }, s)
  | .put id b => do
    let _ ← conn
    let (r, s') := s.findByIdAndUpdate id b
    pure ({ status := 200,
            body := match r with
              | some t => .json t
              | none => .jsonNull }, s')
  | .delete id => do
    let _ ← conn
    pure ({ status := 204, body := .empty }, s.findByIdAndDelete id)

/-- The service as seen by a client: a handler error reaches the
framework default error handler, which answers with an unstructured
500 and leaves the store untouched. -/
def app (conn : Except StoreError Unit) (s : Store) (r : Request) :
    Response × Store :=
  match handle conn s r with
  | .ok out => out
  | .error _ => ({ status := 500, body := .errorHtml }, s)

/-- A connected store (successful `connectDB()`). -/
def connOk : Except StoreError Unit := .ok ()

/-- Mongo guarantees `_id` uniqueness inside a collection: two stored
documents with the same id are the same document. -/
def Store.UniqueIds (s : Store) : Prop :=
  ∀ u ∈ s.tasks, ∀ v ∈ s.tasks, u.id = v.id → u = v

/-- Mapping a function that fixes every member of a list is the
identity on the list. -/
theorem list_map_id_of_mem {α : Type} {l : List α} {f : α → α}
    (h : ∀ a ∈ l, f a = a) : l.map f = l := by
  induction l with
  | nil => rfl
  | cons a l ih =>
    simp only [List.map_cons, h a (List.mem_cons_self a l)]
    exact congrArg _ (ih fun b hb => h b (List.mem_cons_of_mem a hb))

/-- `$set` of no fields is the identity on a document. -/
theorem applyUpdate_empty (t : Task) : t.applyUpdate {} = t := rfl

/-- A concrete one-task store used as a test fixture. -/
def s1 : Store :=
  { tasks := [{ id := 1, title := "Buy milk", description := none,
                dueDate := none, isCompleted := false, createdAt := 10 }],
    nextId := 2, now := 20 }

/-- C1: every POST /api/tasks request whose body carries a non-empty
title yields a 201 response whose body is a Task record with the
store-assigned id `s.nextId` and a createdAt (defaulted to the store
clock when the body does not set it); isCompleted is false when the
body does not set it, the body's value otherwise. -/
theorem post_created_201 (s : Store) (b : TaskBody) (x : String)
    (ht : b.title = some x) (hx : x ≠ "") :
    (app connOk s (.post b)).1 =
      { status := 201,
        body := .json
          { id := s.nextId, title := x, description := b.description,
            dueDate := b.dueDate, isCompleted := b.isCompleted.getD false,
            createdAt := b.createdAt.getD s.now } } := by
  simp [app, handle, connOk, Task.create, ht, hx]
  rfl

/-- Witness for C1 at a concrete request. -/
theorem post_created_201_witness :
    (app connOk { tasks := [], nextId := 0, now := 5 }
        (.post { title := some "Buy milk" })).1 =
      { status := 201,
        body := .json
          { id := 0, title := "Buy milk", description := none,
            dueDate := none, isCompleted := false, createdAt := 5 } } :=
  post_created_201 { tasks := [], nextId := 0, now := 5 }
    { title := some "Buy milk" } "Buy milk" rfl (by decide)

/-- C2: a PUT /api/tasks/:id whose body is exactly `{title: x}`
replaces the title of the matching record, leaves its other fields as
they were, returns the updated record with status 200, and touches no
other record. -/
theorem put_title_only_frame (s : Store) (id : Nat) (t : Task) (x : String)
    (hf : s.tasks.find? (fun u => u.id == id) = some t) :
    app connOk s (.put id { title := some x }) =
      ({ status := 200, body := .json { t with title := x } },
       { s with tasks :=
          s.tasks.map (fun u => if u.id == id then { t with title := x } else u) }) := by
  simp [app, handle, connOk, Store.findByIdAndUpdate, hf, Task.applyUpdate]

/-- Witness for C2 at a concrete store and request. -/
theorem put_title_only_frame_witness :
    app connOk s1 (.put 1 { title := some "Call mom" }) =
      ({ status := 200,
         body := .json { id := 1, title := "Call mom", description := none,
                         dueDate := none, isCompleted := false, createdAt := 10 } },
       { tasks := [{ id := 1, title := "Call mom", description := none,
                     dueDate := none, isCompleted := false, createdAt := 10 }],
         nextId := 2, now := 20 }) :=
  put_title_only_frame s1 1
    { id := 1, title := "Buy milk", description := none,
      dueDate := none, isCompleted := false, createdAt := 10 }
    "Call mom" (by decide)

/-- C3, counterexample to the claim as stated: on the empty store the
store reports the absence of id 7 (`findByIdAndUpdate` returns
`null`), yet the PUT response has status 200, not 404. -/
theorem put_absent_no_404 :
    ((Store.findByIdAndUpdate { tasks := [], nextId := 0, now := 0 } 7 {}).1 = none)
      ∧ (app connOk { tasks := [], nextId := 0, now := 0 } (.put 7 {})).1.status = 200
      ∧ (app connOk { tasks := [], nextId := 0, now := 0 } (.put 7 {})).1.status ≠ 404 := by
  decide

/-- C3 amended: a PUT /api/tasks/:id for an id absent from the store
responds with status 200 and JSON body `null` — not a valid Task
record — and leaves the store unchanged; no 404 is produced. -/
theorem put_absent_200_null (s : Store) (id : Nat) (b : TaskBody)
    (h : s.tasks.find? (fun u => u.id == id) = none) :
    app connOk s (.put id b) = ({ status := 200, body := .jsonNull }, s) := by
  simp [app, handle, connOk, Store.findByIdAndUpdate, h]

/-- Witness for the amended C3 at a concrete absent id. -/
theorem put_absent_200_null_witness :
    app connOk s1 (.put 9 {}) = ({ status := 200, body := .jsonNull }, s1) :=
  put_absent_200_null s1 9 {} (by decide)

/-- C4: the title-never-empty invariant fails on the code. The schema
declares `title` required, but `findByIdAndUpdate` does not run
schema validators, so a PUT with body `{title: ""}` stores the empty
title: starting from a store holding the task `id 1, title "Buy
milk"`, the request succeeds with 200 and the stored record afterwards
has an empty title. -/
theorem put_empty_title_stored :
    (app connOk s1 (.put 1 { title := some "" })).1.status = 200
      ∧ ((app connOk s1 (.put 1 { title := some "" })).2).tasks =
          [{ id := 1, title := "", description := none, dueDate := none,
             isCompleted := false, createdAt := 10 }] := by
  decide

/-- C5, counterexample to the claim as stated: a PUT whose body sets
`createdAt` changes the stored createdAt of the matching task — in
the fixture store the task has createdAt 10, and after a PUT with
body `{createdAt: 999}` the stored createdAt is 999. -/
theorem put_changes_createdAt :
    s1.tasks.map Task.createdAt = [10]
      ∧ ((app connOk s1 (.put 1 { createdAt := some 999 })).2).tasks.map
          Task.createdAt = [999] := by
  decide

/-- C5 amended: a PUT whose body does not set `createdAt` leaves the
createdAt of every stored task unchanged (assuming the Mongo guarantee
that ids are unique in the collection). -/
theorem put_preserves_createdAt (s : Store) (id : Nat) (b : TaskBody)
    (hb : b.createdAt = none) (hu : s.UniqueIds) :
    ((app connOk s (.put id b)).2).tasks.map Task.createdAt =
      s.tasks.map Task.createdAt := by
  cases hf : s.tasks.find? (fun u => u.id == id) with
  | none => simp [app, handle, connOk, Store.findByIdAndUpdate, hf]
  | some t =>
    have hmem : t ∈ s.tasks := List.mem_of_find?_eq_some hf
    have hid : t.id = id := by
      have := List.find?_some hf
      simpa using this
    simp only [app, handle, connOk, Store.findByIdAndUpdate, hf]
    show (s.tasks.map fun u => if u.id == id then t.applyUpdate b else u).map
        Task.createdAt = s.tasks.map Task.createdAt
    rw [List.map_map]
    apply List.map_congr_left
    intro u hu'
    by_cases h : u.id = id
    · have hut : u = t := hu u hu' t hmem (h.trans hid.symm)
      simp [Function.comp, h, hut, hid, Task.applyUpdate, hb]
    · simp [Function.comp, h]

/-- Witness for the amended C5 at a concrete request. -/
theorem put_preserves_createdAt_witness :
    ((app connOk s1 (.put 1 { isCompleted := some true })).2).tasks.map
        Task.createdAt = s1.tasks.map Task.createdAt :=
  put_preserves_createdAt s1 1 { isCompleted := some true } rfl
    (by intro u hu v hv h
        simp only [s1, List.mem_singleton] at hu hv
        rw [hu, hv])

/-- C6: a POST whose body has a missing or empty title fails schema
validation in the store — `create` yields a `ValidationError` — so no
record is added (the store is unchanged) and the request takes the
error path. -/
theorem post_invalid_title_rejected (s : Store) (b : TaskBody)
    (h : b.title = none ∨ b.title = some "") :
    Task.create s b = .error .validationError
      ∧ (app connOk s (.post b)).2 = s := by
  rcases h with h | h <;>
    exact ⟨by simp [Task.create, h],
           by simp [app, handle, connOk, Task.create, h]; rfl⟩

/-- Witness for C6 at a concrete empty-title request. -/
theorem post_invalid_title_rejected_witness :
    Task.create s1 { title := some "" } = .error .validationError
      ∧ (app connOk s1 (.post { title := some "" })).2 = s1 :=
  post_invalid_title_rejected s1 { title := some "" } (Or.inr rfl)

/-- C7: starting from an empty store, creating tasks A and B and then
issuing GET /api/tasks yields a 200 whose body lists exactly the two
created records. -/
theorem get_after_two_creates (n m : Nat) (a b : TaskBody) (xa xb : String)
    (ha : a.title = some xa) (hxa : xa ≠ "")
    (hb : b.title = some xb) (hxb : xb ≠ "") :
    ∃ tA tB,
      (app connOk { tasks := [], nextId := n, now := m } (.post a)).1.body = .json tA
        ∧ (app connOk (app connOk { tasks := [], nextId := n, now := m } (.post a)).2
            (.post b)).1.body = .json tB
        ∧ (app connOk
            (app connOk (app connOk { tasks := [], nextId := n, now := m } (.post a)).2
              (.post b)).2 .get).1 =
          { status := 200, body := .jsonList [tA, tB] } := by
  refine ⟨{ id := n, title := xa, description := a.description,
            dueDate := a.dueDate, isCompleted := a.isCompleted.getD false,
            createdAt := a.createdAt.getD m },
          { id := n + 1, title := xb, description := b.description,
            dueDate := b.dueDate, isCompleted := b.isCompleted.getD false,
            createdAt := b.createdAt.getD m },
          ?_, ?_, ?_⟩ <;>
    (simp [app, handle, connOk, Task.create, Store.findAll, ha, hxa, hb, hxb];
      try rfl)

/-- Witness for C7 at two concrete creations. -/
theorem get_after_two_creates_witness :
    ∃ tA tB,
      (app connOk { tasks := [], nextId := 0, now := 3 }
          (.post { title := some "A" })).1.body = .json tA
        ∧ (app connOk
            (app connOk { tasks := [], nextId := 0, now := 3 }
              (.post { title := some "A" })).2
            (.post { title := some "B" })).1.body = .json tB
        ∧ (app connOk
            (app connOk
              (app connOk { tasks := [], nextId := 0, now := 3 }
                (.post { title := some "A" })).2
              (.post { title := some "B" })).2 .get).1 =
          { status := 200, body := .jsonList [tA, tB] } :=
  get_after_two_creates 0 3 { title := some "A" } { title := some "B" }
    "A" "B" rfl (by decide) rfl (by decide)

/-- C8: DELETE /api/tasks/:id always responds 204 with an empty body,
whether or not the id is stored — no distinction reaches the caller —
and when the id is absent the deletion is a no-op on the store. -/
theorem delete_204_idempotent (s : Store) (id : Nat) :
    (app connOk s (.delete id)).1 = { status := 204, body := .empty }
      ∧ ((∀ t ∈ s.tasks, t.id ≠ id) → (app connOk s (.delete id)).2 = s) := by
  constructor
  · rfl
  · intro h
    obtain ⟨tasks, nid, nw⟩ := s
    simp only [app, handle, connOk, Store.findByIdAndDelete]
    show (Store.mk (tasks.filter fun u => u.id != id) nid nw) = Store.mk tasks nid nw
    have : tasks.filter (fun u => u.id != id) = tasks := by
      apply List.filter_eq_self.mpr
      intro a ha
      simpa using h a ha
    rw [this]

/-- Witness for C8: deleting an absent id from the fixture store keeps
the store intact and answers 204 with an empty body. -/
theorem delete_204_idempotent_witness :
    (app connOk s1 (.delete 9)).1 = { status := 204, body := .empty }
      ∧ (app connOk s1 (.delete 9)).2 = s1 :=
  ⟨(delete_204_idempotent s1 9).1, (delete_204_idempotent s1 9).2 (by decide)⟩

/-- C9: no route handler catches store errors, so whenever the store
operation behind a request fails (a rejected `connectDB()` or a store
call failing with any `StoreError`), the framework default error
handler answers: an unstructured 500 response with no structured error
body, and the store is left as it was. -/
theorem store_error_gives_500 (conn : Except StoreError Unit) (s : Store)
    (r : Request) (e : StoreError) (h : handle conn s r = .error e) :
    app conn s r = ({ status := 500, body := .errorHtml }, s) := by
  simp [app, h]

/-- Witness for C9: a GET while the connection is down yields the
unstructured 500. -/
theorem store_error_gives_500_witness :
    app (.error .storeUnavailable) s1 .get =
      ({ status := 500, body := .errorHtml }, s1) :=
  store_error_gives_500 (.error .storeUnavailable) s1 .get .storeUnavailable rfl

/-- C10: a PUT /api/tasks/:id with the empty body, for a stored id,
responds 200 with the stored record and changes nothing: the no-field
update is an identity (using the Mongo guarantee that ids are unique
in the collection). -/
theorem put_empty_body_identity (s : Store) (id : Nat) (t : Task)
    (hf : s.tasks.find? (fun u => u.id == id) = some t) (hu : s.UniqueIds) :
    app connOk s (.put id {}) = ({ status := 200, body := .json t }, s) := by
  have hmem : t ∈ s.tasks := List.mem_of_find?_eq_some hf
  have hid : t.id = id := by
    have := List.find?_some hf
    simpa using this
  simp only [app, handle, connOk, Store.findByIdAndUpdate, hf, applyUpdate_empty]
  show (({ status := 200, body := .json t } : Response),
      { s with tasks := s.tasks.map fun u => if u.id == id then t else u }) =
    ({ status := 200, body := .json t }, s)
  have hmap : (s.tasks.map fun u => if u.id == id then t else u) = s.tasks := by
    apply list_map_id_of_mem
    intro u hu'
    by_cases h : u.id = id
    · simp [h, (hu u hu' t hmem (h.trans hid.symm)).symm]
    · simp [h]
  obtain ⟨tasks, nid, nw⟩ := s
  simp_all

/-- Witness for C10: the empty-body PUT on the fixture store returns
the stored task and leaves the store unchanged. -/
theorem put_empty_body_identity_witness :
    app connOk s1 (.put 1 {}) =
      ({ status := 200,
         body := .json { id := 1, title := "Buy milk", description := none,
                         dueDate := none, isCompleted := false, createdAt := 10 } },
       s1) :=
  put_empty_body_identity s1 1
    { id := 1, title := "Buy milk", description := none,
      dueDate := none, isCompleted := false, createdAt := 10 }
    (by decide)
    (by intro u hu v hv h
        simp only [s1, List.mem_singleton] at hu hv
        rw [hu, hv])

end TaskApp
